import Mathlib

/-!
Verification of the scribe store pipeline (src/store.h).

The repository ships the store interface header `src/store.h`; the method
bodies live in a `store.cpp` translation unit that is not part of the
sources, except for the inline bodies of `MultiStore::readOldest`,
`MultiStore::deleteOldest` and `MultiStore::empty` (store.h lines 443-446),
which are embedded here directly from the source.  Every other operation is
modelled from the specification, as marked on each definition.
-/

namespace Scribe

/-- A log entry: a category tag and an opaque message (store.h `logentry`). -/
structure LogEntry where
  category : String
  message : List Char
deriving DecidableEq, Repr

/-- Ordered message batch (store.h `logentry_vector_t`). -/
abbrev logentry_vector_t := List LogEntry

/- ------------------------------------------------------------------ -/
/- Leaf handleMessages (claim C1)                                      -/
/- ------------------------------------------------------------------ -/

/-- Modelled from the spec: the bodies of the `Store::handleMessages`
overrides (store.cpp) are missing from src/.  Spec §4.1: "On success,
residual is empty. On failure, residual contains the uncommitted suffix";
§4.3: "On I/O error the residual is the suffix starting at the failed
entry."  `writeOk i` tells whether committing the i-th entry succeeds;
entries are committed one at a time, in order, stopping at the first
failure. -/
def handleMessagesAux (writeOk : Nat → Bool) : Nat → logentry_vector_t → Bool × logentry_vector_t
  | _, [] => (true, [])
  | i, m :: rest =>
    if writeOk i then handleMessagesAux writeOk (i + 1) rest
    else (false, m :: rest)

/-- Modelled from the spec: entry point of the leaf write path, committing
the batch from its first entry (see `handleMessagesAux`). -/
def handleMessages (writeOk : Nat → Bool) (messages : logentry_vector_t) : Bool × logentry_vector_t :=
  handleMessagesAux writeOk 0 messages

/- ------------------------------------------------------------------ -/
/- FileStoreBase.bytesToPad (claim C5)                                 -/
/- ------------------------------------------------------------------ -/

/-- Modelled from the spec: the body of `FileStoreBase::bytesToPad`
(store.cpp) is missing from src/.  Spec §4.2: "returns 0 if chunk = 0 or
msg_len > chunk; else the number of bytes required so that the message does
not cross a chunk-aligned boundary (i.e. pad up to next chunk if message
would straddle)." -/
def bytesToPad (next_message_length current_file_size chunk_size : Nat) : Nat :=
  if chunk_size = 0 ∨ chunk_size < next_message_length then 0
  else
    let space_left_in_chunk := chunk_size - current_file_size % chunk_size
    if space_left_in_chunk < next_message_length then space_left_in_chunk else 0

/-- A record of length `len` written at absolute offset `off` crosses a
`chunk`-aligned boundary when it does not fit in the rest of its chunk. -/
def crossesChunkBoundary (off len chunk : Nat) : Prop :=
  chunk < off % chunk + len

instance (off len chunk : Nat) : Decidable (crossesChunkBoundary off len chunk) := by
  unfold crossesChunkBoundary
  infer_instance

/- ------------------------------------------------------------------ -/
/- BufferStore retry interval (claim C4)                               -/
/- ------------------------------------------------------------------ -/

/-- Modelled from the spec: the body of `BufferStore::getNewRetryInterval`
(store.cpp) is missing from src/.  Spec §3: "a randomized retryInterval in
[avgRetry − range/2, avgRetry + range/2]"; modelled as the average minus
half the range plus a random draw reduced modulo the range (the draw `r`
stands for the raw random number). -/
def getNewRetryInterval (avgRetryInterval : Int) (retryIntervalRange : Nat) (r : Nat) : Int :=
  if retryIntervalRange = 0 then avgRetryInterval
  else avgRetryInterval - (retryIntervalRange : Int) / 2 + (r : Int) % (retryIntervalRange : Int)

/- ------------------------------------------------------------------ -/
/- BufferStore state machine (claims C2, C3)                           -/
/- ------------------------------------------------------------------ -/

/-- Buffer state machine states, from store.h lines 274-278. -/
inductive buffer_state_t where
  | STREAMING
  | DISCONNECTED
  | SENDING_BUFFER
deriving DecidableEq, Repr

/-- Modelled from the spec: the body of `BufferStore::stateAsString`
(store.cpp) is missing from src/; §4.6 has every transition "emit a status
line naming the new state", so each state maps to its name. -/
def stateAsString : buffer_state_t → String
  | buffer_state_t.STREAMING => "STREAMING"
  | buffer_state_t.DISCONNECTED => "DISCONNECTED"
  | buffer_state_t.SENDING_BUFFER => "SENDING_BUFFER"

/-- Modelled from the spec: the events of the §4.6 transition table (the
bodies of `BufferStore::handleMessages` / `periodicCheck` in store.cpp are
missing from src/). -/
inductive BufferEvent where
  | primaryHandleFail   -- primary.handle_messages fails (while STREAMING)
  | retryOpenSuccess    -- retry interval elapsed and primary.open() succeeds
  | secondaryEmptyNow   -- secondary.empty(now) holds (while draining)
  | drainPrimaryFail    -- primary fails mid-drain
deriving DecidableEq, Repr

/-- Modelled from the spec: the §4.6 transition table as a step function;
events that the table does not list for a state leave the state unchanged. -/
def transition : buffer_state_t → BufferEvent → buffer_state_t
  | buffer_state_t.STREAMING, BufferEvent.primaryHandleFail => buffer_state_t.DISCONNECTED
  | buffer_state_t.DISCONNECTED, BufferEvent.retryOpenSuccess => buffer_state_t.SENDING_BUFFER
  | buffer_state_t.SENDING_BUFFER, BufferEvent.secondaryEmptyNow => buffer_state_t.STREAMING
  | buffer_state_t.SENDING_BUFFER, BufferEvent.drainPrimaryFail => buffer_state_t.DISCONNECTED
  | s, _ => s

/-- The rows of the §4.6 transition table, as a relation. -/
def tableRow : buffer_state_t → BufferEvent → buffer_state_t → Prop
  | buffer_state_t.STREAMING, BufferEvent.primaryHandleFail, buffer_state_t.DISCONNECTED => True
  | buffer_state_t.DISCONNECTED, BufferEvent.retryOpenSuccess, buffer_state_t.SENDING_BUFFER => True
  | buffer_state_t.SENDING_BUFFER, BufferEvent.secondaryEmptyNow, buffer_state_t.STREAMING => True
  | buffer_state_t.SENDING_BUFFER, BufferEvent.drainPrimaryFail, buffer_state_t.DISCONNECTED => True
  | _, _, _ => False

/-- BufferStore mutable state, from store.h lines 291-295. -/
structure BufferStoreState where
  state : buffer_state_t
  status : String
  lastWriteTime : Nat
  lastOpenAttempt : Nat
  retryInterval : Int
deriving DecidableEq, Repr

/-- Modelled from the spec: the body of `BufferStore::changeState`
(store.cpp) is missing from src/.  §4.6: "On every entry: update
lastOpenAttempt, compute a fresh random retryInterval, emit a status line
naming the new state." -/
def changeState (avgRetryInterval : Int) (retryIntervalRange : Nat)
    (st : BufferStoreState) (new_state : buffer_state_t) (now r : Nat) : BufferStoreState :=
  { st with
    state := new_state
    status := stateAsString new_state
    lastOpenAttempt := now
    retryInterval := getNewRetryInterval avgRetryInterval retryIntervalRange r }

/- ------------------------------------------------------------------ -/
/- Drain algorithm (claim C3)                                          -/
/- ------------------------------------------------------------------ -/

/-- Modelled from the spec: the outcome of one `primary.handle_messages`
call during a drain (§4.6): all entries accepted, failure with a residual,
or a primary error before the call completed. -/
inductive PrimaryResp where
  | accepted
  | residualFail (residual : logentry_vector_t)
  | errorBefore
deriving DecidableEq, Repr

/-- Modelled from the spec: `FileStore::readOldest` in buffer mode
(store.cpp missing from src/) decodes the oldest buffered file into the
output batch; an empty batch results when no file remains.  The secondary
is the queue of buffer files, oldest first. -/
def secondaryReadOldest (files : List logentry_vector_t) : logentry_vector_t :=
  files.headD []

/-- Modelled from the spec: `FileStore::deleteOldest` unlinks the oldest
buffer file. -/
def secondaryDeleteOldest (files : List logentry_vector_t) : List logentry_vector_t :=
  files.tail

/-- Modelled from the spec: `FileStore::replaceOldest` rewrites the oldest
buffer file with a new batch. -/
def secondaryReplaceOldest (residual : logentry_vector_t)
    (files : List logentry_vector_t) : List logentry_vector_t :=
  residual :: files.tail

/-- The state a drain acts on: the secondary's buffer-file queue and the
buffer state machine's state. -/
structure DrainState where
  files : List logentry_vector_t
  bstate : buffer_state_t
deriving DecidableEq, Repr

/-- Modelled from the spec drain algorithm (§4.6; `BufferStore::periodicCheck`
in store.cpp is missing from src/): process one buffer file.  Read the
oldest file; if the batch is empty, transition to STREAMING; if the primary
accepts the whole batch, delete the oldest file; if it fails with a
non-empty residual, replace the oldest file with the residual and go to
DISCONNECTED; on a primary error before the call completes, leave the
oldest file intact and go to DISCONNECTED. -/
def drainOne (primary : logentry_vector_t → PrimaryResp) (st : DrainState) : DrainState :=
  let batch := secondaryReadOldest st.files
  if batch = [] then { st with bstate := buffer_state_t.STREAMING }
  else
    match primary batch with
    | PrimaryResp.accepted => { st with files := secondaryDeleteOldest st.files }
    | PrimaryResp.residualFail residual =>
      if residual = [] then { st with bstate := buffer_state_t.DISCONNECTED }
      else { files := secondaryReplaceOldest residual st.files
             bstate := buffer_state_t.DISCONNECTED }
    | PrimaryResp.errorBefore => { st with bstate := buffer_state_t.DISCONNECTED }

/-- Modelled from the spec: per periodic tick, process up to
`bufferSendRate` buffer files, stopping as soon as the state leaves
SENDING_BUFFER. -/
def drainLoop (primary : logentry_vector_t → PrimaryResp) : Nat → DrainState → DrainState
  | 0, st => st
  | n + 1, st =>
    if st.bstate = buffer_state_t.SENDING_BUFFER then drainLoop primary n (drainOne primary st)
    else st

/-- Modelled from the spec: one `periodicCheck` while in SENDING_BUFFER
drains up to `bufferSendRate` files. -/
def periodicCheckSending (primary : logentry_vector_t → PrimaryResp)
    (bufferSendRate : Nat) (st : DrainState) : DrainState :=
  drainLoop primary bufferSendRate st

/- ------------------------------------------------------------------ -/
/- FileStore reading (claim C6)                                        -/
/- ------------------------------------------------------------------ -/

/-- Modelled from the spec: `FileStoreBase::findOldestFile` (store.cpp
missing from src/) scans the directory entries and returns the minimum
date among the existing buffer files (none when no file exists); a buffer
file is represented here by its date. -/
def findOldestFile : List Nat → Option Nat
  | [] => none
  | d :: rest =>
    match findOldestFile rest with
    | none => some d
    | some m => some (min d m)

/-- Modelled from the spec: `FileStore::empty(now)` (store.cpp missing from
src/): true exactly when "no file exists, or oldest file date ≥ now" —
never consume the file currently being written into this wall-clock
interval. -/
def FileStore.empty (files : List Nat) (now : Nat) : Bool :=
  match findOldestFile files with
  | none => true
  | some d => decide (now ≤ d)

/- ------------------------------------------------------------------ -/
/- NetworkStore (claim C7)                                             -/
/- ------------------------------------------------------------------ -/

/-- Result of the single RPC carrying a batch (§6 outbound collaborators). -/
inductive RpcResult where
  | OK
  | TRY_AGAIN
  | ERR
deriving DecidableEq, Repr

/-- NetworkStore mutable state: the `opened` flag (store.h line 335). -/
structure NetworkStoreState where
  opened : Bool
deriving DecidableEq, Repr

/-- Modelled from the spec: `NetworkStore::handleMessages` (store.cpp
missing from src/) performs a single RPC carrying the whole batch; on OK
the residual is empty; on TRY_AGAIN or any transport error the residual is
the full batch and the store is marked not-open.  `send` is the outcome of
the RPC for this batch. -/
def NetworkStore.handleMessages (send : RpcResult) (st : NetworkStoreState)
    (messages : logentry_vector_t) : (Bool × logentry_vector_t) × NetworkStoreState :=
  match send with
  | RpcResult.OK => ((true, []), st)
  | RpcResult.TRY_AGAIN => ((false, messages), { opened := false })
  | RpcResult.ERR => ((false, messages), { opened := false })

/-- Modelled from the spec: `NetworkStore::isOpen` reports the `opened`
flag. -/
def NetworkStore.isOpen (st : NetworkStoreState) : Bool :=
  st.opened

/- ------------------------------------------------------------------ -/
/- BucketStore bucketize (claim C8)                                    -/
/- ------------------------------------------------------------------ -/

/-- Modelled from the spec: the key extraction of `BucketStore::bucketize`
(store.cpp missing from src/) — split the message at the first occurrence
of the delimiter into the key and the remainder; none when the delimiter
does not occur in the message. -/
def splitAtDelimiter (delimiter : Char) : List Char → Option (List Char × List Char)
  | [] => none
  | ch :: rest =>
    if ch = delimiter then some ([], rest)
    else
      match splitAtDelimiter delimiter rest with
      | none => none
      | some (key, remainder) => some (ch :: key, remainder)

/-- Numeric value of a digit string, most significant digit first. -/
def digitsVal (s : List Char) : Nat :=
  s.foldl (fun acc ch => acc * 10 + (ch.toNat - 48)) 0

/-- Modelled from the spec: parse_integer — a key parses as an integer
exactly when it is a nonempty string of decimal digits; otherwise it is
unparseable. -/
def parseInteger (s : List Char) : Option Nat :=
  if s ≠ [] ∧ s.all Char.isDigit then some (digitsVal s) else none

/-- Modelled from the spec: `BucketStore::bucketize` with the `key_modulo`
bucketizer (store.cpp missing from src/): bucket = parse_integer(key) mod
num_buckets, 0 when the key is unparseable, and the reserved orphan bucket
0 when the delimiter does not occur in the message. -/
def bucketize (delimiter : Char) (numBuckets : Nat) (message : List Char) : Nat :=
  match splitAtDelimiter delimiter message with
  | none => 0
  | some (key, _) =>
    match parseInteger key with
    | none => 0
    | some i => i % numBuckets

/- ------------------------------------------------------------------ -/
/- Store open/close (claim C9)                                         -/
/- ------------------------------------------------------------------ -/

/-- The open/close-relevant state of a store: whether it is open, and how
often the underlying resource has been acquired. -/
structure GStoreState where
  opened : Bool
  acquisitions : Nat
deriving DecidableEq, Repr

/-- Modelled from the spec: `Store::open` (the override bodies in store.cpp
are missing from src/) — "acquire any underlying resource; returns
success/failure; idempotent against an already-open instance".  `acquireOk`
tells whether acquiring the resource succeeds. -/
def storeOpen (acquireOk : Bool) (st : GStoreState) : Bool × GStoreState :=
  if st.opened then (true, st)
  else if acquireOk then (true, { opened := true, acquisitions := st.acquisitions + 1 })
  else (false, st)

/-- Modelled from the spec: `Store::close` — "release resources; safe to
call repeatedly". -/
def storeClose (st : GStoreState) : GStoreState :=
  { st with opened := false }

/- ------------------------------------------------------------------ -/
/- MultiStore Readable operations (claim C10; inline in store.h)       -/
/- ------------------------------------------------------------------ -/

/-- MultiStore state: the ordered list of child stores (store.h line 449);
children are abstracted to their open/close state. -/
structure MultiStoreState where
  stores : List GStoreState
deriving DecidableEq, Repr

/-- From store.h lines 443-444: `bool readOldest(messages, now)
\x7b return false; \x7d` — returns false and leaves the out-parameter batch
and the store untouched. -/
def MultiStore.readOldest (st : MultiStoreState) (messages : logentry_vector_t)
    (now : Nat) : Bool × logentry_vector_t × MultiStoreState :=
  (false, messages, st)

/-- From store.h line 445: `void deleteOldest(now) \x7b\x7d` — no effect. -/
def MultiStore.deleteOldest (st : MultiStoreState) (now : Nat) : MultiStoreState :=
  st

/-- From store.h line 446: `bool empty(now) \x7b return true; \x7d`. -/
def MultiStore.empty (st : MultiStoreState) (now : Nat) : Bool :=
  true

/-- Sample log entry used by the concrete witnesses. -/
def sampleEntry : LogEntry :=
  { category := "c", message := ['a'] }

/-- Second sample log entry used by the concrete witnesses. -/
def sampleEntry2 : LogEntry :=
  { category := "c", message := ['b'] }

/- ------------------------------------------------------------------ -/
/- Theorems                                                            -/
/- ------------------------------------------------------------------ -/

/-- Helper for C1: from any starting index, the leaf write path either
succeeds with empty residual or fails with a residual that is a strict
suffix position of the batch. -/
theorem handleMessagesAux_spec (writeOk : Nat → Bool) :
    ∀ (messages : logentry_vector_t) (i : Nat),
      handleMessagesAux writeOk i messages = (true, []) ∨
      ∃ k, k < messages.length ∧
        handleMessagesAux writeOk i messages = (false, messages.drop k) := by
  intro messages
  induction messages with
  | nil => intro i; exact Or.inl rfl
  | cons m rest ih =>
    intro i
    by_cases h : writeOk i = true
    · rcases ih (i + 1) with h1 | ⟨k, hk, h2⟩
      · exact Or.inl (by simp [handleMessagesAux, h, h1])
      · refine Or.inr ⟨k + 1, by simpa using Nat.succ_lt_succ hk, ?_⟩
        simpa [handleMessagesAux, h] using h2
    · refine Or.inr ⟨0, by simp, ?_⟩
      simp [handleMessagesAux, h]

/-- C1: for every (modelled) store write path and every submitted batch,
`handleMessages` returns success with an empty residual, or failure with a
residual that is exactly the uncommitted suffix `messages.drop k` of the
submitted batch: every entry before the residual has been committed, and the
residual keeps the original order of the remaining entries. -/
theorem handleMessages_success_or_residual_suffix (writeOk : Nat → Bool)
    (messages : logentry_vector_t) :
    handleMessages writeOk messages = (true, []) ∨
    ∃ k, k < messages.length ∧
      handleMessages writeOk messages = (false, messages.drop k) :=
  handleMessagesAux_spec writeOk messages 0

/-- C4: every retry interval produced by the generator lies in the closed
interval [avg − range/2, avg + range/2], for every configured average and
range and every random draw. -/
theorem getNewRetryInterval_bounds (avgRetryInterval : Int) (retryIntervalRange r : Nat) :
    avgRetryInterval - (retryIntervalRange : Int) / 2
      ≤ getNewRetryInterval avgRetryInterval retryIntervalRange r ∧
    getNewRetryInterval avgRetryInterval retryIntervalRange r
      ≤ avgRetryInterval + (retryIntervalRange : Int) / 2 := by
  unfold getNewRetryInterval
  by_cases h : retryIntervalRange = 0
  · subst h; simp
  · have hne : (retryIntervalRange : Int) ≠ 0 := by exact_mod_cast h
    have hpos : (0 : Int) < (retryIntervalRange : Int) := by
      exact_mod_cast Nat.pos_of_ne_zero h
    have h1 : 0 ≤ (r : Int) % (retryIntervalRange : Int) := Int.emod_nonneg _ hne
    have h2 : (r : Int) % (retryIntervalRange : Int) < (retryIntervalRange : Int) :=
      Int.emod_lt_of_pos _ hpos
    simp only [h, if_false]
    omega

/-- C5: `bytesToPad` returns 0 when the chunk size is 0 or the message is
longer than a chunk; otherwise it returns exactly the number of padding
bytes needed so that a message of length `m` written at offset `c` does not
cross a `chunk`-aligned boundary: with the returned padding the record does
not straddle, and with any smaller padding it would. -/
theorem bytesToPad_correct (m c chunk : Nat) :
    (chunk = 0 ∨ chunk < m → bytesToPad m c chunk = 0) ∧
    (0 < chunk → m ≤ chunk →
      ¬ crossesChunkBoundary (c + bytesToPad m c chunk) m chunk ∧
      ∀ p < bytesToPad m c chunk, crossesChunkBoundary (c + p) m chunk) := by
  constructor
  · intro h
    unfold bytesToPad
    rcases h with h | h <;> simp [h]
  · intro hpos hm
    have hc0 : ¬ (chunk = 0 ∨ chunk < m) := by omega
    have hmod : c % chunk < chunk := Nat.mod_lt _ hpos
    have hdvd : c = chunk * (c / chunk) + c % chunk := (Nat.div_add_mod c chunk).symm
    by_cases hfit : chunk - c % chunk < m
    · have hpad : bytesToPad m c chunk = chunk - c % chunk := by
        unfold bytesToPad
        simp [hc0, hfit]
      constructor
      · rw [hpad]
        unfold crossesChunkBoundary
        have hzero : (c + (chunk - c % chunk)) % chunk = 0 := by
          rcases Nat.eq_zero_or_pos (c % chunk) with hr | hr
          · rw [hr, Nat.sub_zero, Nat.add_mod_right, hr]
          · rw [Nat.add_mod, Nat.mod_eq_of_lt (show chunk - c % chunk < chunk by omega)]
            have hsum : c % chunk + (chunk - c % chunk) = chunk := by omega
            rw [hsum, Nat.mod_self]
        rw [hzero]
        omega
      · intro p hp
        rw [hpad] at hp
        unfold crossesChunkBoundary
        have hlt : c % chunk + p < chunk := by omega
        have : (c + p) % chunk = c % chunk + p := by
          conv_lhs => rw [hdvd]
          rw [Nat.add_assoc, Nat.mul_add_mod]
          exact Nat.mod_eq_of_lt hlt
        omega
    · have hpad : bytesToPad m c chunk = 0 := by
        unfold bytesToPad
        simp [hc0, hfit]
      constructor
      · rw [hpad]
        unfold crossesChunkBoundary
        rw [Nat.add_zero]
        omega
      · intro p hp
        rw [hpad] at hp
        omega

/-- Witness for C5 at concrete inputs: both the degenerate branch (chunk
smaller than the message) and the padding branch (message of length 3 at
offset 5 in chunks of 4 gets padded past the boundary) are exercised. -/
theorem bytesToPad_correct_witness :
    bytesToPad 7 5 4 = 0 ∧
    (¬ crossesChunkBoundary (5 + bytesToPad 3 5 4) 3 4 ∧
      ∀ p < bytesToPad 3 5 4, crossesChunkBoundary (5 + p) 3 4) :=
  ⟨(bytesToPad_correct 7 5 4).1 (Or.inr (by decide)),
   (bytesToPad_correct 3 5 4).2 (by decide) (by decide)⟩

/-- C2: the BufferStore state machine is closed under the §4.6 transition
table: every event takes every state either to the state the table
prescribes or leaves it unchanged; each table row fires exactly at its
event (STREAMING reaches DISCONNECTED exactly on a primary failure,
DISCONNECTED reaches SENDING_BUFFER exactly when the retry succeeds,
SENDING_BUFFER reaches STREAMING exactly when the secondary is empty and
DISCONNECTED exactly on a mid-drain primary failure); and after every
changeState the status string names the current state. -/
theorem bufferStore_state_machine_closed
    (s : buffer_state_t) (e : BufferEvent) (st : BufferStoreState)
    (avgRetryInterval : Int) (retryIntervalRange now r : Nat) :
    (tableRow s e (transition s e) ∨ transition s e = s) ∧
    (transition buffer_state_t.STREAMING e = buffer_state_t.DISCONNECTED ↔
      e = BufferEvent.primaryHandleFail) ∧
    (transition buffer_state_t.DISCONNECTED e = buffer_state_t.SENDING_BUFFER ↔
      e = BufferEvent.retryOpenSuccess) ∧
    (transition buffer_state_t.SENDING_BUFFER e = buffer_state_t.STREAMING ↔
      e = BufferEvent.secondaryEmptyNow) ∧
    (transition buffer_state_t.SENDING_BUFFER e = buffer_state_t.DISCONNECTED ↔
      e = BufferEvent.drainPrimaryFail) ∧
    (changeState avgRetryInterval retryIntervalRange st (transition s e) now r).status
      = stateAsString
          (changeState avgRetryInterval retryIntervalRange st (transition s e) now r).state := by
  refine ⟨?_, ?_, ?_, ?_, ?_, ?_⟩
  · cases s <;> cases e <;> simp [transition, tableRow]
  · cases e <;> simp [transition]
  · cases e <;> simp [transition]
  · cases e <;> simp [transition]
  · cases e <;> simp [transition]
  · simp [changeState]

/-- Witness for C2 at a concrete state and event: a primary failure while
STREAMING lands in DISCONNECTED, and after the changeState the status
names the state reached. -/
theorem bufferStore_state_machine_closed_witness :
    transition buffer_state_t.STREAMING BufferEvent.primaryHandleFail
      = buffer_state_t.DISCONNECTED ∧
    (changeState 30 10 ⟨buffer_state_t.STREAMING, "", 0, 0, 0⟩
        (transition buffer_state_t.STREAMING BufferEvent.primaryHandleFail) 5 7).status
      = stateAsString
          (changeState 30 10 ⟨buffer_state_t.STREAMING, "", 0, 0, 0⟩
            (transition buffer_state_t.STREAMING BufferEvent.primaryHandleFail) 5 7).state :=
  ⟨(bufferStore_state_machine_closed buffer_state_t.STREAMING BufferEvent.primaryHandleFail
      ⟨buffer_state_t.STREAMING, "", 0, 0, 0⟩ 30 10 5 7).2.1.mpr rfl,
   (bufferStore_state_machine_closed buffer_state_t.STREAMING BufferEvent.primaryHandleFail
      ⟨buffer_state_t.STREAMING, "", 0, 0, 0⟩ 30 10 5 7).2.2.2.2.2⟩

/-- Helper for C3: one drain step removes at most one buffer file from the
secondary queue. -/
theorem drainOne_length (primary : logentry_vector_t → PrimaryResp) (st : DrainState) :
    st.files.length ≤ (drainOne primary st).files.length + 1 := by
  obtain ⟨files, bstate⟩ := st
  unfold drainOne secondaryReadOldest secondaryDeleteOldest secondaryReplaceOldest
  cases files with
  | nil => simp
  | cons b rest =>
    simp only [List.headD_cons]
    by_cases hb : b = []
    · simp [hb]
    · simp only [hb, if_false]
      cases primary b with
      | accepted => simp
      | residualFail residual =>
        by_cases hres : residual = [] <;> simp [hres]
      | errorBefore => simp

/-- Helper for C3: a drain loop of `n` steps removes at most `n` buffer
files from the secondary queue. -/
theorem drainLoop_length (primary : logentry_vector_t → PrimaryResp) :
    ∀ (n : Nat) (st : DrainState),
      st.files.length ≤ (drainLoop primary n st).files.length + n := by
  intro n
  induction n with
  | zero => intro st; simp [drainLoop]
  | succ n ih =>
    intro st
    unfold drainLoop
    by_cases h : st.bstate = buffer_state_t.SENDING_BUFFER
    · simp only [h, if_true]
      have h1 := drainOne_length primary st
      have h2 := ih (drainOne primary st)
      omega
    · simp only [h, if_false]
      omega

/-- C3: in SENDING_BUFFER one periodic check processes at most
`bufferSendRate` secondary files, oldest first, and for the oldest file:
an empty read transitions to STREAMING and leaves the queue alone; full
acceptance by the primary deletes the oldest file and keeps draining; a
non-empty residual replaces the oldest file with the residual and
transitions to DISCONNECTED; a primary error before the call completes
leaves the oldest file intact and transitions to DISCONNECTED. -/
theorem periodicCheck_sending_buffer_drain
    (primary : logentry_vector_t → PrimaryResp) (bufferSendRate : Nat) (st : DrainState) :
    st.files.length ≤ (periodicCheckSending primary bufferSendRate st).files.length
        + bufferSendRate ∧
    (secondaryReadOldest st.files = [] →
      drainOne primary st = { st with bstate := buffer_state_t.STREAMING }) ∧
    (∀ b rest, st.files = b :: rest → b ≠ [] →
      (primary b = PrimaryResp.accepted →
        drainOne primary st = { files := rest, bstate := st.bstate }) ∧
      (∀ residual, residual ≠ [] → primary b = PrimaryResp.residualFail residual →
        drainOne primary st
          = { files := residual :: rest, bstate := buffer_state_t.DISCONNECTED }) ∧
      (primary b = PrimaryResp.errorBefore →
        drainOne primary st
          = { files := b :: rest, bstate := buffer_state_t.DISCONNECTED })) := by
  refine ⟨drainLoop_length primary bufferSendRate st, ?_, ?_⟩
  · intro h
    simp [drainOne, h]
  · intro b rest hf hb
    refine ⟨?_, ?_, ?_⟩
    · intro hp
      simp [drainOne, secondaryReadOldest, secondaryDeleteOldest, hf, hb, hp]
    · intro residual hres hp
      simp [drainOne, secondaryReadOldest, secondaryReplaceOldest, hf, hb, hp, hres]
    · intro hp
      simp [drainOne, secondaryReadOldest, hf, hb, hp]

/-- Witness for C3 at concrete inputs: an empty read flips the drain to
STREAMING; full acceptance deletes the oldest file; a non-empty residual
replaces the oldest file and disconnects; a primary error leaves the
oldest file intact and disconnects; and a one-step loop consumes at most
one file. -/
theorem periodicCheck_sending_buffer_drain_witness :
    (⟨[], buffer_state_t.SENDING_BUFFER⟩ : DrainState).files.length
        ≤ (periodicCheckSending (fun _ => PrimaryResp.accepted) 1
            ⟨[], buffer_state_t.SENDING_BUFFER⟩).files.length + 1 ∧
    drainOne (fun _ => PrimaryResp.accepted) ⟨[], buffer_state_t.SENDING_BUFFER⟩
      = ⟨[], buffer_state_t.STREAMING⟩ ∧
    drainOne (fun _ => PrimaryResp.accepted) ⟨[[sampleEntry]], buffer_state_t.SENDING_BUFFER⟩
      = ⟨[], buffer_state_t.SENDING_BUFFER⟩ ∧
    drainOne (fun _ => PrimaryResp.residualFail [sampleEntry2])
        ⟨[[sampleEntry, sampleEntry2]], buffer_state_t.SENDING_BUFFER⟩
      = ⟨[[sampleEntry2]], buffer_state_t.DISCONNECTED⟩ ∧
    drainOne (fun _ => PrimaryResp.errorBefore) ⟨[[sampleEntry]], buffer_state_t.SENDING_BUFFER⟩
      = ⟨[[sampleEntry]], buffer_state_t.DISCONNECTED⟩ :=
  ⟨(periodicCheck_sending_buffer_drain (fun _ => PrimaryResp.accepted) 1
      ⟨[], buffer_state_t.SENDING_BUFFER⟩).1,
   (periodicCheck_sending_buffer_drain (fun _ => PrimaryResp.accepted) 0
      ⟨[], buffer_state_t.SENDING_BUFFER⟩).2.1 rfl,
   ((periodicCheck_sending_buffer_drain (fun _ => PrimaryResp.accepted) 0
      ⟨[[sampleEntry]], buffer_state_t.SENDING_BUFFER⟩).2.2 [sampleEntry] [] rfl
      (by decide)).1 rfl,
   (((periodicCheck_sending_buffer_drain (fun _ => PrimaryResp.residualFail [sampleEntry2]) 0
      ⟨[[sampleEntry, sampleEntry2]], buffer_state_t.SENDING_BUFFER⟩).2.2
      [sampleEntry, sampleEntry2] [] rfl (by decide)).2.1 [sampleEntry2] (by decide) rfl),
   (((periodicCheck_sending_buffer_drain (fun _ => PrimaryResp.errorBefore) 0
      ⟨[[sampleEntry]], buffer_state_t.SENDING_BUFFER⟩).2.2 [sampleEntry] [] rfl
      (by decide)).2.2 rfl)⟩

/-- Helper for C6: the oldest-file scan returns none exactly when no file
exists. -/
theorem findOldestFile_eq_none (files : List Nat) :
    findOldestFile files = none ↔ files = [] := by
  cases files with
  | nil => simp [findOldestFile]
  | cons d rest =>
    simp only [findOldestFile]
    cases findOldestFile rest <;> simp

/-- Helper for C6: the oldest-file scan returns a date that belongs to the
listing and is minimal in it. -/
theorem findOldestFile_min :
    ∀ (files : List Nat) (d : Nat), findOldestFile files = some d →
      d ∈ files ∧ ∀ e ∈ files, d ≤ e := by
  intro files
  induction files with
  | nil => intro d h; simp [findOldestFile] at h
  | cons a rest ih =>
    intro d h
    simp only [findOldestFile] at h
    cases hrest : findOldestFile rest with
    | none =>
      rw [hrest] at h
      obtain rfl : a = d := by simpa using h
      have : rest = [] := (findOldestFile_eq_none rest).mp hrest
      subst this
      simp
    | some m =>
      rw [hrest] at h
      obtain rfl : min a m = d := by simpa using h
      obtain ⟨hmem, hmin⟩ := ih m hrest
      constructor
      · rcases Nat.le_total a m with hle | hle
        · simp [Nat.min_eq_left hle]
        · have : min a m = m := Nat.min_eq_right hle
          rw [this]
          exact List.mem_cons_of_mem _ hmem
      · intro e he
        rcases List.mem_cons.mp he with rfl | he
        · exact Nat.min_le_left _ _
        · exact le_trans (Nat.min_le_right _ _) (hmin e he)

/-- C6: for a buffer-mode FileStore, `empty(now)` returns true exactly when
no buffer file exists or the oldest existing file's date is not earlier
than `now` (so the file being written in the current wall-clock interval is
never considered consumable). -/
theorem fileStore_empty_iff (files : List Nat) (now : Nat) :
    FileStore.empty files now = true ↔
      files = [] ∨ ∃ d, d ∈ files ∧ (∀ e ∈ files, d ≤ e) ∧ now ≤ d := by
  unfold FileStore.empty
  cases h : findOldestFile files with
  | none =>
    have : files = [] := (findOldestFile_eq_none files).mp h
    simp [this]
  | some d =>
    obtain ⟨hmem, hmin⟩ := findOldestFile_min files d h
    simp only [decide_eq_true_eq]
    constructor
    · intro hle
      exact Or.inr ⟨d, hmem, hmin, hle⟩
    · rintro (rfl | ⟨d', hmem', hmin', hle'⟩)
      · simp at hmem
      · have h1 : d ≤ d' := hmin d' hmem'
        have h2 : d' ≤ d := hmin' d hmem
        omega

/-- Witness for C6 at a concrete listing: with files dated 3 and 5 and the
wall clock at 2, the oldest file is not earlier than now, so the store is
empty. -/
theorem fileStore_empty_iff_witness : FileStore.empty [3, 5] 2 = true :=
  (fileStore_empty_iff [3, 5] 2).mpr (Or.inr ⟨3, by decide, by decide, by decide⟩)

/-- C7: NetworkStore.handleMessages — when the single RPC returns OK the
call succeeds with an empty residual and the state is unchanged; on
TRY_AGAIN or any transport error the call fails, the residual is the
entire submitted batch unchanged, and the opened flag is cleared so that
isOpen subsequently reports false. -/
theorem networkStore_handleMessages_spec (send : RpcResult) (st : NetworkStoreState)
    (messages : logentry_vector_t) :
    (send = RpcResult.OK →
      NetworkStore.handleMessages send st messages = ((true, []), st)) ∧
    (send ≠ RpcResult.OK →
      (NetworkStore.handleMessages send st messages).1.1 = false ∧
      (NetworkStore.handleMessages send st messages).1.2 = messages ∧
      NetworkStore.isOpen (NetworkStore.handleMessages send st messages).2 = false) := by
  cases send <;> simp [NetworkStore.handleMessages, NetworkStore.isOpen]

/-- Witness for C7 at concrete inputs: an OK RPC commits the batch with
empty residual; a TRY_AGAIN RPC hands the full batch back and clears the
open flag. -/
theorem networkStore_handleMessages_witness :
    NetworkStore.handleMessages RpcResult.OK ⟨true⟩ [sampleEntry] = ((true, []), ⟨true⟩) ∧
    (NetworkStore.handleMessages RpcResult.TRY_AGAIN ⟨true⟩ [sampleEntry]).1.2 = [sampleEntry] ∧
    NetworkStore.isOpen
      (NetworkStore.handleMessages RpcResult.TRY_AGAIN ⟨true⟩ [sampleEntry]).2 = false :=
  ⟨(networkStore_handleMessages_spec RpcResult.OK ⟨true⟩ [sampleEntry]).1 rfl,
   ((networkStore_handleMessages_spec RpcResult.TRY_AGAIN ⟨true⟩ [sampleEntry]).2
      (by decide)).2.1,
   ((networkStore_handleMessages_spec RpcResult.TRY_AGAIN ⟨true⟩ [sampleEntry]).2
      (by decide)).2.2⟩

/-- C8: the key_modulo bucketizer routes a message whose key (the prefix
before the first delimiter) parses as integer i to bucket i mod numBuckets,
a message with an unparseable key to bucket 0, and a message in which the
delimiter does not occur to the reserved orphan bucket 0. -/
theorem bucketize_key_modulo_spec (delimiter : Char) (numBuckets : Nat)
    (message key remainder : List Char) :
    (splitAtDelimiter delimiter message = some (key, remainder) →
      (∀ i, parseInteger key = some i →
        bucketize delimiter numBuckets message = i % numBuckets) ∧
      (parseInteger key = none → bucketize delimiter numBuckets message = 0)) ∧
    (splitAtDelimiter delimiter message = none →
      bucketize delimiter numBuckets message = 0) := by
  constructor
  · intro hsplit
    constructor
    · intro i hi
      simp [bucketize, hsplit, hi]
    · intro h
      simp [bucketize, hsplit, h]
  · intro h
    simp [bucketize, h]

/-- Witness for C8 at concrete inputs with numBuckets = 5: the message
"12<tab>x" goes to bucket 12 mod 5, the message "a<tab>x" with unparseable
key goes to bucket 0, and the delimiter-free message "ab" goes to the
orphan bucket 0. -/
theorem bucketize_key_modulo_witness :
    bucketize '\t' 5 ['1', '2', '\t', 'x'] = 12 % 5 ∧
    bucketize '\t' 5 ['a', '\t', 'x'] = 0 ∧
    bucketize '\t' 5 ['a', 'b'] = 0 :=
  ⟨((bucketize_key_modulo_spec '\t' 5 ['1', '2', '\t', 'x'] ['1', '2'] ['x']).1
      (by decide)).1 12 (by decide),
   ((bucketize_key_modulo_spec '\t' 5 ['a', '\t', 'x'] ['a'] ['x']).1
      (by decide)).2 (by decide),
   (bucketize_key_modulo_spec '\t' 5 ['a', 'b'] [] []).2 (by decide)⟩

/-- C9: open and close are idempotent: calling open twice in succession
yields the same result and state as calling it once, calling close twice
equals calling it once, and open on an already-open store succeeds and
leaves the state — in particular the resource acquisition count —
unchanged. -/
theorem storeOpen_storeClose_idempotent (acquireOk : Bool) (st : GStoreState) (n : Nat) :
    storeOpen acquireOk (storeOpen acquireOk st).2 = storeOpen acquireOk st ∧
    storeClose (storeClose st) = storeClose st ∧
    storeOpen acquireOk { opened := true, acquisitions := n }
      = (true, { opened := true, acquisitions := n }) := by
  refine ⟨?_, rfl, rfl⟩
  unfold storeOpen
  by_cases h : st.opened <;> cases acquireOk <;> simp [h]

/-- C10: MultiStore implements the Readable operations trivially and
unconditionally — readOldest returns false without producing messages or
touching the store, deleteOldest changes nothing, and empty reports true,
for every child-store state, batch and wall-clock time; so a MultiStore
always reports itself as an empty readable store regardless of its
children. -/
theorem multiStore_trivially_readable (st : MultiStoreState)
    (messages : logentry_vector_t) (now : Nat) :
    MultiStore.readOldest st messages now = (false, messages, st) ∧
    MultiStore.deleteOldest st now = st ∧
    MultiStore.empty st now = true :=
  ⟨rfl, rfl, rfl⟩

end Scribe
